import Mathlib

/-!
Shallow embedding of src/django_tables2/templatetags/django_tables2.py.

The module defines two querystring-manipulating template tags
(set_url_param, querystring) and two table-rendering template tags
(render_table, smart_render_table).  Each tag has a compile-time parse
function and a render node.  We embed the values the code manipulates
(Python values, the request's query-parameter multidict, the params dict
copy), the external collaborators (Django's urlencode, template loading
and rendering, settings) and the control flow of each parse function and
render method, faithfully to the source.
-/

namespace DjangoTables2

/-- Python values the template layer manipulates: None, text and ints
(resolved template-variable values).  smart_str / unicode() turns each
into text. -/
inductive PyVal where
  | pynone : PyVal
  | str (s : String) : PyVal
  | int (n : Int) : PyVal
deriving DecidableEq, Inhabited

/-- Python unicode()/smart_str() of a value. -/
def PyVal.toStr : PyVal → String
  | .pynone => "None"
  | .str s => s
  | .int n => toString n

/-- A value stored in the params dict: either the list of values copied
from the request's QueryDict entry (dict(request.GET) keeps lists), or a
single plain value assigned by a tag. -/
inductive ParamVal where
  | seq (l : List String) : ParamVal
  | val (v : PyVal) : ParamVal
deriving DecidableEq, Inhabited

/-- The params dict built by the render methods: a Python dict from keys
(arbitrary resolved values; always text for entries copied from the
request) to param values, modelled as an association list with
dict-update semantics. -/
abbrev Params := List (PyVal × ParamVal)

/-- Python dict lookup (first matching key; keys are unique in a real
dict, and the update operations below preserve that reading). -/
def dictLookup (params : Params) (k : PyVal) : Option ParamVal :=
  (List.find? (fun p => p.1 = k) params).map Prod.snd

/-- Python dict.pop(key, default): removes the entry for the key, absent
keys are fine. -/
def dictPop (params : Params) (k : PyVal) : Params :=
  List.filter (fun p => p.1 ≠ k) params

/-- Python dict assignment params[k] = v: replaces the value of an
existing entry in place, otherwise appends a new entry. -/
def dictSet (params : Params) (k : PyVal) (v : ParamVal) : Params :=
  if List.any params (fun p => p.1 = k) then
    List.map (fun p => if p.1 = k then (k, v) else p) params
  else
    params ++ [(k, v)]

/-- The request's GET QueryDict: a multidict from text keys to lists of
text values. -/
abbrev QueryGet := List (String × List String)

/-- Django QueryDict.get(key): the last value of the entry's list, or
None (here: Option.none) when the key is absent. -/
def qdGet (g : QueryGet) (k : String) : Option String :=
  (List.find? (fun p => p.1 = k) g).bind (fun p => p.2.getLast?)

/-- dict(request.GET): copies the multidict into a plain dict whose
values are the underlying lists. -/
def dictOfGet (g : QueryGet) : Params :=
  List.map (fun p => (PyVal.str p.1, ParamVal.seq p.2)) g

/-- An HTTP request; only the query parameters matter to this module. -/
structure Request where
  GET : QueryGet
deriving DecidableEq, Inhabited

/-- The template context; the module only ever reads the request entry
(context.get('request') / context['request']).  A missing entry and a
falsy entry (None) are both Option.none, matching the `if not request`
guard. -/
structure Context where
  request? : Option Request
deriving DecidableEq, Inhabited

/-- Python2 urllib hex digit (uppercase) for percent-encoding. -/
def hexDigit (n : Nat) : Char :=
  if n < 10 then Char.ofNat (48 + n) else Char.ofNat (55 + n)

/-- Bytes urllib.quote_plus leaves unescaped: ASCII letters, digits,
underscore, dot, hyphen. -/
def urlSafeByte (b : UInt8) : Bool :=
  (48 ≤ b && b ≤ 57) || (65 ≤ b && b ≤ 90) || (97 ≤ b && b ≤ 122) ||
    b = 95 || b = 46 || b = 45

/-- urllib.quote_plus: utf-8 bytes, space to '+', safe bytes kept,
everything else percent-encoded. -/
def quotePlus (s : String) : String :=
  String.join (List.map
    (fun b =>
      if b = (32 : UInt8) then "+"
      else if urlSafeByte b then String.singleton (Char.ofNat b.toNat)
      else "%" ++ String.singleton (hexDigit (b.toNat / 16)) ++
        String.singleton (hexDigit (b.toNat % 16)))
    s.toUTF8.toList)

/-- One params entry encoded with doseq=True: a list value contributes
one key=value pair per element, a plain value one pair via smart_str. -/
def encodePairs (k : PyVal) : ParamVal → List String
  | .seq l => List.map (fun v => quotePlus k.toStr ++ "=" ++ quotePlus v) l
  | .val v => [quotePlus k.toStr ++ "=" ++ quotePlus v.toStr]

/-- django.utils.http.urlencode(params, doseq=True). -/
def urlencode (params : Params) : String :=
  String.intercalate "&" (List.flatten (List.map (fun p => encodePairs p.1 p.2) params))

/-- A compiled FilterExpression/Variable: resolving it against a context
yields a Python value. -/
abbrev FilterExpr := Context → PyVal

/-- SetUrlParamNode: holds the changes dict built at parse time (keys are
plain text, values compiled expressions). -/
structure SetUrlParamNode where
  changes : List (String × FilterExpr)

/-- The Python test newvalue == '' or newvalue is None. -/
def isEmptyOrNone (v : PyVal) : Bool :=
  v = PyVal.str "" || v = PyVal.pynone

/-- One iteration of the SetUrlParamNode.render loop: resolve the change
value; empty or None pops the key, anything else assigns its unicode()
text. -/
def applyChange (ctx : Context) (params : Params) (c : String × FilterExpr) : Params :=
  let newvalue := c.2 ctx
  if isEmptyOrNone newvalue then dictPop params (.str c.1)
  else dictSet params (.str c.1) (.val (.str newvalue.toStr))

/-- SetUrlParamNode.render: no (or falsy) request yields "", otherwise a
copy of request.GET is updated change by change and re-encoded.  The
returned context records that nothing in the method assigns into the
context or into request.GET (all updates hit the params copy). -/
def SetUrlParamNode.render (node : SetUrlParamNode) (context : Context) :
    String × Context :=
  match context.request? with
  | none => ("", context)
  | some request =>
    let params := List.foldl (applyChange context) (dictOfGet request.GET) node.changes
    ("?" ++ urlencode params, context)

/-- QuerystringNode: holds the params mapping built by token_kwargs at
parse time; both keys and values are compiled expressions. -/
structure QuerystringNode where
  params : List (FilterExpr × FilterExpr)

/-- One iteration of the QuerystringNode.render loop: resolve key and
value; a key equal to '' or None is skipped, otherwise the raw resolved
value is assigned under the resolved key. -/
def applyQsPair (ctx : Context) (params : Params) (c : FilterExpr × FilterExpr) : Params :=
  let key := c.1 ctx
  let value := c.2 ctx
  if key = PyVal.str "" || key = PyVal.pynone then params
  else dictSet params key (.val value)

/-- QuerystringNode.render: no (or falsy) request yields "", otherwise a
copy of request.GET is updated pair by pair and re-encoded; nothing is
ever removed and the context and request are untouched. -/
def QuerystringNode.render (node : QuerystringNode) (context : Context) :
    String × Context :=
  match context.request? with
  | none => ("", context)
  | some request =>
    let params := List.foldl (applyQsPair context) (dictOfGet request.GET) node.params
    ("?" ++ urlencode params, context)

/-- Python exceptions this module can raise or propagate (tokenError is
tokenize.TokenError, which is not a ValueError and is caught by no
handler in this module). -/
inductive Exc where
  | templateSyntaxError (msg : String)
  | indexError (msg : String)
  | valueError (msg : String)
  | assertionError (msg : String)
  | templateError (msg : String)
  | resolveError (msg : String)
  | tokenError (msg : String)
deriving DecidableEq, Inhabited

/-- True when the character can start a Python NAME token (an ASCII
letter or underscore). -/
def isNameStart (c : Char) : Bool :=
  ('a' ≤ c && c ≤ 'z') || ('A' ≤ c && c ≤ 'Z') || c = '_'

/-- The single-quote character (written by code point). -/
def squote : Char := Char.ofNat 39

/-- The opening brace character (written by code point). -/
def lbrace : Char := Char.ofNat 123

/-- The closing brace character (written by code point). -/
def rbrace : Char := Char.ofNat 125

/-- A Python quote character. -/
def isQuote (c : Char) : Bool := c = squote || c = '"'

/-- A u/U/b/B string-prefix byte of a Python 2 string literal. -/
def isStrPrefixByte (c : Char) : Bool := c = 'u' || c = 'U' || c = 'b' || c = 'B'

/-- An r/R raw-string-prefix byte of a Python 2 string literal. -/
def isRawPrefixByte (c : Char) : Bool := c = 'r' || c = 'R'

/-- Scan past a single-quoted Python 2 string body (the opening quote q
already consumed): runs of ordinary characters and backslash-escape
pairs up to the closing quote.  Returns the remainder after the closing
quote, or none when the string does not terminate on the line (the
tokenizer then emits an ERRORTOKEN for the quote alone). -/
def skipSingleString : List Char → Char → Option (List Char)
  | [], _ => none
  | c :: rest, q =>
    if c = q then some rest
    else if c = '\\' then
      match rest with
      | [] => none
      | _ :: rest' => skipSingleString rest' q
    else skipSingleString rest q

/-- Scan past a triple-quoted Python 2 string body (the opening three
quotes already consumed): honours backslash escapes and closes at the
first run of three quote characters.  Returns the remainder after the
closing triple, or none when the string does not terminate on the line
(the tokenizer then raises TokenError at end of input). -/
def skipTripleString : List Char → Char → Option (List Char)
  | [], _ => none
  | c :: rest, q =>
    if c = '\\' then
      match rest with
      | [] => none
      | _ :: rest' => skipTripleString rest' q
    else if c = q then
      match rest with
      | c2 :: c3 :: rest' =>
        if c2 = q && c3 = q then some rest' else skipTripleString rest q
      | _ => none
    else skipTripleString rest q

/-- Modelled from Python 2 tokenize.generate_tokens forcing the whole
token list of a single whitespace-free line: tracks the bracket nesting
level and the string literals (whose contents are opaque to bracket
counting); a comment swallows the rest of the line.  At end of input,
an open triple-quoted string raises TokenError "EOF in multi-line
string" and a nonzero bracket level raises TokenError "EOF in
multi-line statement"; every other character (names, numbers,
operators, error tokens, the lone quote of an unterminated
single-quoted string) consumes itself and affects neither.  The fuel
argument starts at one more than the character count and each step
consumes at least one character, so fuel never runs out. -/
def scanKey : Nat → List Char → Int → Option String
  | 0, _, _ => none
  | _ + 1, [], lev =>
    if lev = 0 then none else some "EOF in multi-line statement"
  | fuel + 1, c :: rest, lev =>
    if c = '#' then
      (if lev = 0 then none else some "EOF in multi-line statement")
    else if isQuote c then
      if rest.take 2 = [c, c] then
        match skipTripleString (rest.drop 2) c with
        | none => some "EOF in multi-line string"
        | some rest' => scanKey fuel rest' lev
      else
        match skipSingleString rest c with
        | none => scanKey fuel rest lev
        | some rest' => scanKey fuel rest' lev
    else if c = '(' || c = '[' || c = lbrace then scanKey fuel rest (lev + 1)
    else if c = ')' || c = ']' || c = rbrace then scanKey fuel rest (lev - 1)
    else scanKey fuel rest lev

/-- The TokenError, if any, that list(tokenize.generate_tokens(...))
raises on the key text: some message exactly when tokenization aborts
with tokenize.TokenError. -/
def tokenizeKeyErr (a : String) : Option String :=
  scanKey (a.toList.length + 1) a.toList 0

/-- The length of a nonempty Python 2 string-literal prefix
([uUbB]?[rR]?) immediately followed by a quote at the start of the key,
none when the key does not start that way. -/
def strPrefixQuoteLen (cs : List Char) : Option Nat :=
  match cs with
  | c0 :: c1 :: c2 :: _ =>
    if isStrPrefixByte c0 && isRawPrefixByte c1 && isQuote c2 then some 2
    else if (isStrPrefixByte c0 || isRawPrefixByte c0) && isQuote c1 then some 1
    else none
  | [c0, c1] =>
    if (isStrPrefixByte c0 || isRawPrefixByte c0) && isQuote c1 then some 1
    else none
  | _ => none

/-- Modelled from Python 2 tokenize.generate_tokens: the first token of
the (already stripped, whitespace-free) key is a NAME token.  The first
character must start an identifier, and the key must not start with a
string literal carrying a letter prefix: a prefixed triple quote
tokenizes as a string start (STRING when closed, TokenError otherwise),
and a prefixed terminated single-quoted string tokenizes as STRING; a
prefixed unterminated single-quoted string falls back to a NAME
matching the prefix letters alone. -/
def firstTokenIsName (a : String) : Bool :=
  match a.toList with
  | [] => false
  | c0 :: rest =>
    isNameStart c0 &&
      (match strPrefixQuoteLen (c0 :: rest) with
       | none => true
       | some n =>
         match (c0 :: rest).drop n with
         | q :: t =>
           if t.take 2 = [q, q] then false
           else (skipSingleString t q).isNone
         | [] => true)

/-- Python s.split(sep, 1) when the separator occurs: the text before the
first '=' and the text after it; none when no '=' occurs (in which case
the two-target unpacking raises ValueError). -/
def splitEqOnce (s : String) : Option (String × String) :=
  let cs := s.toList
  match List.findIdx? (fun c => c = '=') cs with
  | none => none
  | some i => some ((cs.take i).asString, (cs.drop (i + 1)).asString)

/-- Python whitespace for str.strip(). -/
def isPySpace (c : Char) : Bool :=
  c = ' ' || c = '\t' || c = '\n' || c = '\r' || c = '\x0b' || c = '\x0c'

/-- Python str.strip(): drop leading and trailing whitespace. -/
def pyStrip (s : String) : String :=
  (((s.toList.dropWhile isPySpace).reverse.dropWhile isPySpace).reverse).asString

/-- One set_url_param argument bit: split at the first '=' (no '=' means
the two-target unpacking raises ValueError, caught into
TemplateSyntaxError), strip both sides, then force the tokenization of
the key --- a tokenize.TokenError propagates uncaught (except ValueError
does not catch it) --- and require the first token to be a NAME;
otherwise the tag-compile function raises TemplateSyntaxError (the
source message concatenates "should be" and "key=value" without a
space). -/
def parseUrlParamBit (bit : String) : Except Exc (String × String) :=
  match splitEqOnce bit with
  | none => .error (.templateSyntaxError "Argument syntax wrong: should bekey=value")
  | some ab =>
    match tokenizeKeyErr (pyStrip ab.1) with
    | some msg => .error (.tokenError msg)
    | none =>
      if firstTokenIsName (pyStrip ab.1) then .ok (pyStrip ab.1, pyStrip ab.2)
      else .error (.templateSyntaxError "Argument syntax wrong: should bekey=value")

/-- True when the bit's parse outcome is an uncaught tokenize.TokenError. -/
def isTokenErrResult : Except Exc (String × String) → Bool
  | .error (.tokenError _) => true
  | _ => false

/-- The set_url_param loop over bits[1:], collecting the qschanges
entries in order. -/
def parseUrlParamBits : List String → Except Exc (List (String × String))
  | [] => .ok []
  | bit :: rest =>
    match parseUrlParamBit bit with
    | .error e => .error e
    | .ok kv =>
      match parseUrlParamBits rest with
      | .error e => .error e
      | .ok kvs => .ok (kv :: kvs)

/-- The set_url_param tag-compile function on token.contents.split():
the first bit is the tag name, the remaining bits must each be
key=value with a NAME key. -/
def set_url_param (bits : List String) : Except Exc (List (String × String)) :=
  parseUrlParamBits (List.drop 1 bits)

/-- kwarg_re = (?:(.+)=)?(.+) matched against one bit: the optional group
participates exactly when some '=' has at least one character on each
side, and greediness splits at the last such '='. -/
def kwargMatch (bit : String) : Option (String × String) :=
  let cs := bit.toList
  let valid := List.filter
    (fun i => (cs[i]? == some '=') && decide (1 ≤ i) && decide (i + 1 < cs.length))
    (List.range cs.length)
  match valid.getLast? with
  | none => none
  | some i => some ((cs.take i).asString, (cs.drop (i + 1)).asString)

/-- token_kwargs: consume leading key=value bits (both sides later
compiled as filters); stop at the first bit kwarg_re cannot split, which
stays in the remaining bits together with everything after it. -/
def token_kwargs : List String → List (String × String) × List String
  | [] => ([], [])
  | b :: rest =>
    match kwargMatch b with
    | none => ([], b :: rest)
    | some kv => (kv :: (token_kwargs rest).1, (token_kwargs rest).2)

/-- The querystring tag-compile function on token.split_contents(): pop
the tag name, hand the rest to token_kwargs, and raise
TemplateSyntaxError (out of the finally block, discarding the freshly
built QuerystringNode) when bits are left over. -/
def querystring (bits : List String) : Except Exc (List (String × String)) :=
  match bits with
  | [] => .error (.indexError "pop from empty list")
  | tag :: rest =>
    if (token_kwargs rest).2.isEmpty then .ok (token_kwargs rest).1
    else .error (.templateSyntaxError ("Malformed arguments to " ++ tag))

/-- The render_table tag-compile function.  The source wraps
tag, table = bits.pop(0), parser.compile_filter(bits.pop(0)) in
try/except ValueError intending to raise TemplateSyntaxError when no
table argument is given, but an exhausted bits.pop(0) raises IndexError,
which except ValueError does not catch (and the two-element tuple
assignment can never raise ValueError), so the IndexError propagates.
Returns the table bit and the optional template bit. -/
def render_table (bits : List String) : Except Exc (String × Option String) :=
  match bits with
  | [] => .error (.indexError "pop from empty list")
  | [_tag] => .error (.indexError "pop from empty list")
  | _tag :: tableBit :: rest => .ok (tableBit, rest.head?)

/-- The smart_render_table tag-compile function: same pop pattern as
render_table (same uncaught IndexError when no argument is given),
then up to three optional template bits. -/
def smart_render_table (bits : List String) :
    Except Exc (String × Option String × Option String × Option String) :=
  match bits with
  | [] => .error (.indexError "pop from empty list")
  | [_tag] => .error (.indexError "pop from empty list")
  | _tag :: tb :: rest =>
    .ok (tb, rest.head?, (List.drop 1 rest).head?, (List.drop 2 rest).head?)

/-- A template reference: a single name (basestring) or an iterable of
names (handed to select_template). -/
inductive TemplateRef where
  | name (s : String)
  | names (l : List String)
deriving DecidableEq, Inhabited

/-- An opaque Django QuerySet (only its identity matters here). -/
structure QuerySet where
  tag : Nat
deriving DecidableEq

/-- A django_tables2 Table as this module touches it: its default
template, the transient ordering and pagination state the smart node
assigns, and the temporary request attribute the render methods attach
and delete (none = attribute absent). -/
structure Table where
  template : TemplateRef
  order_by : Option String := none
  page : Option PyVal := none
  request? : Option Request := none
deriving DecidableEq, Inhabited

/-- Django settings the render methods read. -/
structure Settings where
  DEBUG : Bool
  TEMPLATE_STRING_IF_INVALID : String
deriving DecidableEq

/-- External collaborators of the render methods: template loading
(get_template / select_template), template rendering (which sees the
table with the request attached), and the QuerySetTable constructor. -/
structure RenderEnv where
  settings : Settings
  getTemplate : TemplateRef → Except Exc Nat
  renderTemplate : Nat → Table → Request → Except Exc String
  querySetTable : QuerySet → Table

/-- RequestContext(request, ...): a fresh context carrying the request
(only the request slot of a context is modelled). -/
def RequestContext (request : Request) : Context :=
  { request? := some request }

/-- Resolution of the table FilterExpression for render_table: a Table,
or some other value (which the method rejects with ValueError). -/
inductive ResolvedTable where
  | table (t : Table)
  | notTable

/-- RenderTableNode as compiled: the table expression and the optional
template expression, each of which may raise when resolved. -/
structure RenderTableNode where
  tableExpr : Context → Except Exc ResolvedTable
  templateExpr? : Option (Context → Except Exc TemplateRef)

/-- The body of RenderTableNode.render before the outer except wrapper:
resolve the table, require a Table instance and a request in the
context, build a RequestContext, resolve or default the template, load
it, attach the request to the table, render, and delete the request
attribute in the finally block on both outcomes.  Returns the outcome
and the table's final state (none when no table was resolved). -/
def renderTableInner (env : RenderEnv) (node : RenderTableNode) (context : Context) :
    Except Exc String × Option Table :=
  match node.tableExpr context with
  | .error e => (.error e, none)
  | .ok .notTable =>
    (.error (.valueError "Expected Table object, but did not find one."), none)
  | .ok (.table table) =>
    match context.request? with
    | none =>
      (.error (.assertionError "render_table requires that the template context contains the HttpRequest in a request variable, check your TEMPLATE_CONTEXT_PROCESSORS setting."), some table)
    | some request =>
      let context := RequestContext request
      let templateRes : Except Exc TemplateRef :=
        match node.templateExpr? with
        | some te => te context
        | none => .ok table.template
      match templateRes with
      | .error e => (.error e, some table)
      | .ok tref =>
        match env.getTemplate tref with
        | .error e => (.error e, some table)
        | .ok tmpl =>
          let t1 : Table := { table with request? := some request }
          (env.renderTemplate tmpl t1 request, some { t1 with request? := none })

/-- RenderTableNode.render: the body guarded by the bare except --- with
DEBUG the exception re-raises, without it the configured
TEMPLATE_STRING_IF_INVALID placeholder is returned instead. -/
def RenderTableNode.render (env : RenderEnv) (node : RenderTableNode) (context : Context) :
    Except Exc String × Option Table :=
  (match (renderTableInner env node context).1 with
   | .ok s => .ok s
   | .error e =>
     if env.settings.DEBUG then .error e
     else .ok env.settings.TEMPLATE_STRING_IF_INVALID,
   (renderTableInner env node context).2)

/-- Resolution of the table_or_queryset FilterExpression for
smart_render_table: a QuerySet (wrapped into a QuerySetTable), a Table,
or some other value. -/
inductive ResolvedSmart where
  | queryset (qs : QuerySet)
  | table (t : Table)
  | other

/-- SmartRenderTableNode as compiled: the table-or-queryset expression
and the three optional template expressions. -/
structure SmartRenderTableNode where
  tableExpr : Context → Except Exc ResolvedSmart
  tableTemplateExpr? : Option (Context → Except Exc TemplateRef)
  headerTemplateExpr? : Option (Context → Except Exc PyVal)
  rowTemplateExpr? : Option (Context → Except Exc PyVal)

/-- Resolve an optional template expression, as in
expr.resolve(context) if expr is not None else None. -/
def resolveOptPy (oe : Option (Context → Except Exc PyVal)) (ctx : Context) :
    Except Exc (Option PyVal) :=
  match oe with
  | some e => (e ctx).map some
  | none => .ok none

/-- request.GET.get('page', 1): the last value of the page parameter as
text, or the int 1 when the parameter is absent. -/
def pageParam (g : QueryGet) : PyVal :=
  match qdGet g "page" with
  | some s => .str s
  | none => .int 1

/-- The tail of the smart body, after ordering and pagination are
already set on the table: resolve the header and row template
expressions into the context, resolve or default the table template,
load it, attach the request to the table, render, and delete the
request attribute in the finally block on both outcomes.  Returns the
outcome and the table's final state. -/
def smartRenderStaged (env : RenderEnv) (node : SmartRenderTableNode) (context : Context)
    (request : Request) (table : Table) : Except Exc String × Option Table :=
  match resolveOptPy node.headerTemplateExpr? context with
  | .error e => (.error e, some table)
  | .ok _headerTemplate =>
    match resolveOptPy node.rowTemplateExpr? context with
    | .error e => (.error e, some table)
    | .ok _rowTemplate =>
      match (match node.tableTemplateExpr? with
             | some te => te context
             | none => .ok table.template : Except Exc TemplateRef) with
      | .error e => (.error e, some table)
      | .ok tref =>
        match env.getTemplate tref with
        | .error e => (.error e, some table)
        | .ok tmpl =>
          (env.renderTemplate tmpl { table with request? := some request } request,
           some { table with request? := none })

/-- The part of the smart body from the request check on: require a
request in the context, set the table's ordering from the sort parameter
and paginate it to the page parameter (default 1), then resolve the
header and row templates into the context and continue with template
loading and rendering. -/
def smartRenderBody (env : RenderEnv) (node : SmartRenderTableNode) (context : Context)
    (table : Table) : Except Exc String × Option Table :=
  match context.request? with
  | none =>
    (.error (.assertionError "render_table requires that the template context contains the HttpRequest in a request variable, check your TEMPLATE_CONTEXT_PROCESSORS setting."), some table)
  | some request =>
    smartRenderStaged env node context request
      { table with
          order_by := qdGet request.GET "sort",
          page := some (pageParam request.GET) }

/-- SmartRenderTableNode.render body dispatch: resolve the table or
queryset (a queryset is wrapped into a QuerySetTable via the external
constructor), reject anything that is not a Table with ValueError, and
run the body. -/
def smartRenderInner (env : RenderEnv) (node : SmartRenderTableNode) (context : Context) :
    Except Exc String × Option Table :=
  match node.tableExpr context with
  | .error e => (.error e, none)
  | .ok (.queryset qs) => smartRenderBody env node context (env.querySetTable qs)
  | .ok (.table t) => smartRenderBody env node context t
  | .ok .other => (.error (.valueError "Expected Table object, but did not find one."), none)

/-- SmartRenderTableNode.render: the body guarded by the bare except ---
with DEBUG the exception re-raises, without it the configured
TEMPLATE_STRING_IF_INVALID placeholder is returned instead. -/
def SmartRenderTableNode.render (env : RenderEnv) (node : SmartRenderTableNode)
    (context : Context) : Except Exc String × Option Table :=
  (match (smartRenderInner env node context).1 with
   | .ok s => .ok s
   | .error e =>
     if env.settings.DEBUG then .error e
     else .ok env.settings.TEMPLATE_STRING_IF_INVALID,
   (smartRenderInner env node context).2)

/-! Concrete sample objects used to evaluate the development on closed
inputs. -/

/-- A sample request carrying sort, page and q query parameters. -/
def sampleReq : Request := ⟨[("sort", ["name"]), ("page", ["2"]), ("q", ["x"])]⟩

/-- A context carrying the sample request. -/
def sampleCtx : Context := ⟨some sampleReq⟩

/-- A context with no request entry. -/
def noReqCtx : Context := ⟨none⟩

/-- A plain table with a default template and no transient state. -/
def sampleTable : Table := { template := .name "table.html" }

/-- A render environment: debug off, a fixed placeholder, template
loading and rendering that succeed. -/
def sampleEnv : RenderEnv :=
  { settings := { DEBUG := false, TEMPLATE_STRING_IF_INVALID := "INVALID" }
    getTemplate := fun _ => .ok 0
    renderTemplate := fun _ _ _ => .ok "rendered"
    querySetTable := fun _ => sampleTable }

/-- The sample environment with debug on. -/
def debugEnv : RenderEnv :=
  { sampleEnv with settings := { DEBUG := true, TEMPLATE_STRING_IF_INVALID := "INVALID" } }

/-- A render_table node whose table expression resolves to the sample
table, with no template argument. -/
def sampleRenderNode : RenderTableNode := ⟨fun _ => .ok (.table sampleTable), none⟩

/-- A render_table node whose table expression resolves to a non-Table
value. -/
def badRenderNode : RenderTableNode := ⟨fun _ => .ok .notTable, none⟩

/-- A smart_render_table node whose expression resolves to the sample
table. -/
def sampleSmartNode : SmartRenderTableNode :=
  ⟨fun _ => .ok (.table sampleTable), none, none, none⟩

/-- A smart_render_table node whose expression resolves to a non-Table,
non-QuerySet value. -/
def badSmartNode : SmartRenderTableNode := ⟨fun _ => .ok .other, none, none, none⟩

/-- The sample changes for the set_url_param witness: set page to 3,
remove q. -/
def sampleChanges : List (String × FilterExpr) :=
  [("page", fun _ => .str "3"), ("q", fun _ => .str "")]

/-- The sample pairs for the querystring witness: set name, and one pair
whose key resolves to the empty string (skipped). -/
def sampleQsPairs : List (FilterExpr × FilterExpr) :=
  [(fun _ => .str "name", fun _ => .str "Ayers"), (fun _ => .str "", fun _ => .str "zzz")]

/-- The table state smart_render_table produces from the sample request
before delegating: sorted by name, paginated to page 2. -/
def smartResultTable : Table :=
  { template := .name "table.html", order_by := some "name", page := some (.str "2") }

/-! Dictionary lemmas: how dictPop and dictSet act on dictLookup. -/

theorem dictLookup_dictPop (params : Params) (k k' : PyVal) :
    dictLookup (dictPop params k') k = if k = k' then none else dictLookup params k := by
  induction params with
  | nil => simp [dictPop, dictLookup]
  | cons p rest ih =>
    unfold dictPop dictLookup at *
    rw [List.filter_cons]
    by_cases hp : p.1 = k'
    · rw [if_neg (by simp [hp])]
      rw [ih]
      by_cases hk : k = k'
      · simp [hk]
      · rw [if_neg hk, if_neg hk]
        rw [List.find?_cons_of_neg _ (by simp [hp]; exact fun h => hk h.symm)]
    · rw [if_pos (by simp [hp])]
      by_cases hpk : p.1 = k
      · have hk : ¬ k = k' := fun h => hp (hpk.trans h)
        rw [if_neg hk]
        rw [List.find?_cons_of_pos _ (by simp [hpk]), List.find?_cons_of_pos _ (by simp [hpk])]
      · rw [List.find?_cons_of_neg _ (by simp [hpk]), List.find?_cons_of_neg _ (by simp [hpk])]
        exact ih

theorem find?_map_dictSet_ne (params : Params) (k k' : PyVal) (v : ParamVal)
    (hne : ¬ k = k') :
    List.find? (fun p => p.1 = k)
        (List.map (fun p => if p.1 = k' then (k', v) else p) params) =
      List.find? (fun p => p.1 = k) params := by
  induction params with
  | nil => rfl
  | cons p rest ih =>
    rw [List.map_cons]
    by_cases hp : p.1 = k'
    · rw [if_pos hp]
      have h1 : ¬ p.1 = k := fun h => hne (h.symm.trans hp)
      have h2 : ¬ k' = k := fun h => hne h.symm
      rw [List.find?_cons_of_neg _ (by simp [h2]),
        List.find?_cons_of_neg _ (by simp [h1])]
      exact ih
    · rw [if_neg hp]
      by_cases hpk : p.1 = k
      · rw [List.find?_cons_of_pos _ (by simp [hpk]),
          List.find?_cons_of_pos _ (by simp [hpk])]
      · rw [List.find?_cons_of_neg _ (by simp [hpk]),
          List.find?_cons_of_neg _ (by simp [hpk])]
        exact ih

theorem find?_map_dictSet_eq (params : Params) (k' : PyVal) (v : ParamVal)
    (hany : List.any params (fun p => p.1 = k') = true) :
    List.find? (fun p => p.1 = k')
        (List.map (fun p => if p.1 = k' then (k', v) else p) params) = some (k', v) := by
  induction params with
  | nil => simp at hany
  | cons p rest ih =>
    rw [List.map_cons]
    by_cases hp : p.1 = k'
    · rw [if_pos hp]
      exact List.find?_cons_of_pos _ (by simp)
    · rw [if_neg hp]
      rw [List.find?_cons_of_neg _ (by simp [hp])]
      apply ih
      rw [List.any_cons] at hany
      simpa [hp] using hany

theorem dictLookup_dictSet (params : Params) (k k' : PyVal) (v : ParamVal) :
    dictLookup (dictSet params k' v) k = if k = k' then some v else dictLookup params k := by
  unfold dictSet dictLookup
  by_cases hany : List.any params (fun p => p.1 = k') = true
  · rw [if_pos hany]
    by_cases hk : k = k'
    · subst hk
      rw [if_pos rfl, find?_map_dictSet_eq params k v hany]
      rfl
    · rw [if_neg hk, find?_map_dictSet_ne params k k' v hk]
  · rw [if_neg hany]
    rw [List.find?_append]
    by_cases hk : k = k'
    · subst hk
      have hfind : List.find? (fun p => p.1 = k) params = none := by
        rw [List.find?_eq_none]
        intro p hp
        simp only [decide_eq_true_eq]
        intro hpk
        exact hany (List.any_eq_true.mpr ⟨p, hp, by simp [hpk]⟩)
      rw [if_pos rfl, hfind]
      simp
    · rw [if_neg hk]
      have hke : ¬ k' = k := fun h => hk h.symm
      have : List.find? (fun p => p.1 = k) [(k', v)] = none := by
        simp [hke]
      rw [this]
      simp

theorem dictLookup_applyChange (ctx : Context) (params : Params) (c : String × FilterExpr)
    (k : PyVal) :
    dictLookup (applyChange ctx params c) k =
      if k = PyVal.str c.1 then
        (if isEmptyOrNone (c.2 ctx) = true then none
         else some (.val (.str (c.2 ctx).toStr)))
      else dictLookup params k := by
  unfold applyChange
  by_cases h : isEmptyOrNone (c.2 ctx) = true
  · rw [if_pos h, dictLookup_dictPop]
    by_cases hk : k = PyVal.str c.1
    · rw [if_pos hk, if_pos hk, if_pos h]
    · rw [if_neg hk, if_neg hk]
  · rw [if_neg h, dictLookup_dictSet]
    by_cases hk : k = PyVal.str c.1
    · rw [if_pos hk, if_pos hk, if_neg h]
    · rw [if_neg hk, if_neg hk]

theorem dictLookup_foldl_applyChange_not_mem (ctx : Context)
    (changes : List (String × FilterExpr)) (init : Params) (k : PyVal)
    (hk : ∀ c ∈ changes, PyVal.str c.1 ≠ k) :
    dictLookup (List.foldl (applyChange ctx) init changes) k = dictLookup init k := by
  induction changes generalizing init with
  | nil => rfl
  | cons c rest ih =>
    rw [List.foldl_cons]
    rw [ih (applyChange ctx init c) (fun c' hc' => hk c' (List.mem_cons_of_mem _ hc'))]
    rw [dictLookup_applyChange]
    rw [if_neg (fun h => hk c (List.mem_cons_self _ _) h.symm)]

theorem dictLookup_foldl_applyChange_mem (ctx : Context)
    (changes : List (String × FilterExpr)) (init : Params) (k : String) (f : FilterExpr)
    (hnd : (List.map Prod.fst changes).Nodup) (hmem : (k, f) ∈ changes) :
    dictLookup (List.foldl (applyChange ctx) init changes) (.str k) =
      if isEmptyOrNone (f ctx) = true then none
      else some (.val (.str (f ctx).toStr)) := by
  induction changes generalizing init with
  | nil => cases hmem
  | cons c rest ih =>
    rw [List.map_cons, List.nodup_cons] at hnd
    rcases List.mem_cons.mp hmem with heq | hrest
    · rw [List.foldl_cons]
      rw [dictLookup_foldl_applyChange_not_mem ctx rest _ _ (by
        intro c' hc' h
        injection h with hck
        have hmem2 : c'.1 ∈ List.map Prod.fst rest := List.mem_map_of_mem Prod.fst hc'
        rw [hck] at hmem2
        have hkc : k = c.1 := by rw [← heq]
        rw [hkc] at hmem2
        exact hnd.1 hmem2)]
      rw [dictLookup_applyChange, if_pos (by rw [← heq])]
      rw [← heq]
    · rw [List.foldl_cons]
      exact ih (applyChange ctx init c) hnd.2 hrest

/-- Claim C2: SetUrlParamNode.render, given a request in the context,
returns "?" plus the url-encoding of the request's query parameters
updated per the changes: a change resolving to the empty string or None
removes the parameter (absent keys are fine), any other change sets the
parameter to the text of its value, and parameters not named by a change
are untouched. -/
theorem set_url_param_render_spec (changes : List (String × FilterExpr))
    (context : Context) (request : Request)
    (hreq : context.request? = some request)
    (hnd : (List.map Prod.fst changes).Nodup) :
    ∃ params : Params,
      (SetUrlParamNode.render ⟨changes⟩ context).1 = "?" ++ urlencode params ∧
      (∀ k f, (k, f) ∈ changes → isEmptyOrNone (f context) = true →
        dictLookup params (.str k) = none) ∧
      (∀ k f, (k, f) ∈ changes → isEmptyOrNone (f context) = false →
        dictLookup params (.str k) = some (.val (.str (f context).toStr))) ∧
      (∀ k : String, k ∉ List.map Prod.fst changes →
        dictLookup params (.str k) = dictLookup (dictOfGet request.GET) (.str k)) := by
  refine ⟨List.foldl (applyChange context) (dictOfGet request.GET) changes, ?_, ?_, ?_, ?_⟩
  · simp [SetUrlParamNode.render, hreq]
  · intro k f hm he
    rw [dictLookup_foldl_applyChange_mem context changes _ k f hnd hm, if_pos he]
  · intro k f hm he
    rw [dictLookup_foldl_applyChange_mem context changes _ k f hnd hm,
      if_neg (by simp [he])]
  · intro k hk
    refine dictLookup_foldl_applyChange_not_mem context changes _ _ (fun c hc h => ?_)
    have hck : c.1 = k := by cases h; rfl
    exact hk (hck ▸ List.mem_map_of_mem Prod.fst hc)

/-- Witness for set_url_param_render_spec at the sample request and
changes. -/
theorem set_url_param_render_spec_witness :
    ∃ params : Params,
      (SetUrlParamNode.render ⟨sampleChanges⟩ sampleCtx).1 = "?" ++ urlencode params ∧
      (∀ k f, (k, f) ∈ sampleChanges → isEmptyOrNone (f sampleCtx) = true →
        dictLookup params (.str k) = none) ∧
      (∀ k f, (k, f) ∈ sampleChanges → isEmptyOrNone (f sampleCtx) = false →
        dictLookup params (.str k) = some (.val (.str (f sampleCtx).toStr))) ∧
      (∀ k : String, k ∉ List.map Prod.fst sampleChanges →
        dictLookup params (.str k) = dictLookup (dictOfGet sampleReq.GET) (.str k)) :=
  set_url_param_render_spec sampleChanges sampleCtx sampleReq rfl (by decide)

theorem dictLookup_applyQsPair (ctx : Context) (params : Params)
    (c : FilterExpr × FilterExpr) (k : PyVal) :
    dictLookup (applyQsPair ctx params c) k =
      if (c.1 ctx = PyVal.str "" || c.1 ctx = PyVal.pynone) = true then dictLookup params k
      else if k = c.1 ctx then some (.val (c.2 ctx)) else dictLookup params k := by
  unfold applyQsPair
  by_cases h : (c.1 ctx = PyVal.str "" || c.1 ctx = PyVal.pynone) = true
  · rw [if_pos h, if_pos h]
  · rw [if_neg h, if_neg h, dictLookup_dictSet]

theorem dictLookup_foldl_applyQsPair_not_named (ctx : Context)
    (pairs : List (FilterExpr × FilterExpr)) (init : Params) (k : PyVal)
    (hk : ∀ c ∈ pairs,
      (c.1 ctx = PyVal.str "" || c.1 ctx = PyVal.pynone) = true ∨ c.1 ctx ≠ k) :
    dictLookup (List.foldl (applyQsPair ctx) init pairs) k = dictLookup init k := by
  induction pairs generalizing init with
  | nil => rfl
  | cons c rest ih =>
    rw [List.foldl_cons]
    rw [ih (applyQsPair ctx init c) (fun c' hc' => hk c' (List.mem_cons_of_mem _ hc'))]
    rw [dictLookup_applyQsPair]
    rcases hk c (List.mem_cons_self _ _) with hskip | hne
    · rw [if_pos hskip]
    · by_cases hskip : (c.1 ctx = PyVal.str "" || c.1 ctx = PyVal.pynone) = true
      · rw [if_pos hskip]
      · rw [if_neg hskip, if_neg (fun h => hne h.symm)]

theorem dictLookup_foldl_applyQsPair_named (ctx : Context)
    (pairs : List (FilterExpr × FilterExpr)) (init : Params)
    (c₀ : FilterExpr × FilterExpr)
    (hnd : (List.map (fun c => c.1 ctx) pairs).Nodup)
    (hmem : c₀ ∈ pairs)
    (hgood : (c₀.1 ctx = PyVal.str "" || c₀.1 ctx = PyVal.pynone) = false) :
    dictLookup (List.foldl (applyQsPair ctx) init pairs) (c₀.1 ctx) =
      some (.val (c₀.2 ctx)) := by
  induction pairs generalizing init with
  | nil => cases hmem
  | cons c rest ih =>
    rw [List.map_cons, List.nodup_cons] at hnd
    rcases List.mem_cons.mp hmem with heq | hrest
    · rw [List.foldl_cons]
      rw [dictLookup_foldl_applyQsPair_not_named ctx rest _ _ (by
        intro c' hc'
        right
        intro h
        have hmem2 : c'.1 ctx ∈ List.map (fun c => c.1 ctx) rest :=
          List.mem_map_of_mem (fun c => c.1 ctx) hc'
        rw [h, heq] at hmem2
        exact hnd.1 hmem2)]
      rw [dictLookup_applyQsPair, if_neg (by rw [heq] at hgood; simp [hgood]),
        if_pos (by rw [heq])]
      rw [heq]
    · rw [List.foldl_cons]
      exact ih (applyQsPair ctx init c) hnd.2 hrest

/-- Claim C3: QuerystringNode.render, given a request in the context,
returns "?" plus the url-encoding of the request's query parameters
updated with every pair whose resolved key is neither the empty string
nor None (set to the raw resolved value); pairs with an empty or None
key are skipped, parameters not named by a pair are untouched, and no
parameter is ever removed. -/
theorem querystring_render_spec (pairs : List (FilterExpr × FilterExpr))
    (context : Context) (request : Request)
    (hreq : context.request? = some request)
    (hnd : (List.map (fun c => c.1 context) pairs).Nodup) :
    ∃ params : Params,
      (QuerystringNode.render ⟨pairs⟩ context).1 = "?" ++ urlencode params ∧
      (∀ c ∈ pairs, (c.1 context = PyVal.str "" || c.1 context = PyVal.pynone) = false →
        dictLookup params (c.1 context) = some (.val (c.2 context))) ∧
      (∀ k : PyVal, (∀ c ∈ pairs,
          (c.1 context = PyVal.str "" || c.1 context = PyVal.pynone) = true ∨
            c.1 context ≠ k) →
        dictLookup params k = dictLookup (dictOfGet request.GET) k) ∧
      (∀ k : PyVal, dictLookup (dictOfGet request.GET) k ≠ none →
        dictLookup params k ≠ none) := by
  refine ⟨List.foldl (applyQsPair context) (dictOfGet request.GET) pairs, ?_, ?_, ?_, ?_⟩
  · simp [QuerystringNode.render, hreq]
  · intro c hm hgood
    exact dictLookup_foldl_applyQsPair_named context pairs _ c hnd hm hgood
  · intro k hk
    exact dictLookup_foldl_applyQsPair_not_named context pairs _ k hk
  · intro k hsome
    by_cases hex : ∃ c ∈ pairs,
      (c.1 context = PyVal.str "" || c.1 context = PyVal.pynone) = false ∧ c.1 context = k
    · obtain ⟨c, hm, hgood, hck⟩ := hex
      rw [← hck]
      rw [dictLookup_foldl_applyQsPair_named context pairs _ c hnd hm hgood]
      exact fun h => Option.noConfusion h
    · rw [dictLookup_foldl_applyQsPair_not_named context pairs _ k (by
        intro c hm
        by_cases hskip : (c.1 context = PyVal.str "" || c.1 context = PyVal.pynone) = true
        · exact Or.inl hskip
        · refine Or.inr (fun hck => hex ⟨c, hm, ?_, hck⟩)
          exact Bool.not_eq_true _ ▸ (by simpa using hskip))]
      exact hsome

/-- Witness for querystring_render_spec at the sample request and
pairs. -/
theorem querystring_render_spec_witness :
    ∃ params : Params,
      (QuerystringNode.render ⟨sampleQsPairs⟩ sampleCtx).1 = "?" ++ urlencode params ∧
      (∀ c ∈ sampleQsPairs,
        (c.1 sampleCtx = PyVal.str "" || c.1 sampleCtx = PyVal.pynone) = false →
        dictLookup params (c.1 sampleCtx) = some (.val (c.2 sampleCtx))) ∧
      (∀ k : PyVal, (∀ c ∈ sampleQsPairs,
          (c.1 sampleCtx = PyVal.str "" || c.1 sampleCtx = PyVal.pynone) = true ∨
            c.1 sampleCtx ≠ k) →
        dictLookup params k = dictLookup (dictOfGet sampleReq.GET) k) ∧
      (∀ k : PyVal, dictLookup (dictOfGet sampleReq.GET) k ≠ none →
        dictLookup params k ≠ none) :=
  querystring_render_spec sampleQsPairs sampleCtx sampleReq rfl (by decide)

/-- Claim C5: a querystring-tag render never mutates the request's
query-parameter mapping or the context: each render works on a copy of
request.GET (dict(request.GET)) that lives only for that render, and the
context comes back exactly as it went in. -/
theorem render_preserves_context (su : SetUrlParamNode) (qs : QuerystringNode)
    (context : Context) :
    (SetUrlParamNode.render su context).2 = context ∧
    (QuerystringNode.render qs context).2 = context := by
  refine ⟨?_, ?_⟩
  · unfold SetUrlParamNode.render
    split <;> rfl
  · unfold QuerystringNode.render
    split <;> rfl

/-- Claim C9: with no request entry in the context (a falsy entry
behaves the same under the `if not request` guard), both querystring
node renders return the empty string without error and leave the
context unchanged. -/
theorem render_no_request_empty_string (su : SetUrlParamNode) (qs : QuerystringNode)
    (context : Context) (h : context.request? = none) :
    SetUrlParamNode.render su context = ("", context) ∧
    QuerystringNode.render qs context = ("", context) := by
  refine ⟨?_, ?_⟩
  · unfold SetUrlParamNode.render
    rw [h]
  · unfold QuerystringNode.render
    rw [h]

/-- Witness for render_no_request_empty_string on a request-free
context. -/
theorem render_no_request_empty_string_witness :
    SetUrlParamNode.render ⟨sampleChanges⟩ noReqCtx = ("", noReqCtx) ∧
    QuerystringNode.render ⟨sampleQsPairs⟩ noReqCtx = ("", noReqCtx) :=
  render_no_request_empty_string ⟨sampleChanges⟩ ⟨sampleQsPairs⟩ noReqCtx rfl

/-- Claim C1: an exception raised in the body of RenderTableNode.render
or SmartRenderTableNode.render is swallowed and replaced with the
configured TEMPLATE_STRING_IF_INVALID placeholder when settings.DEBUG is
off, and propagates to the caller when settings.DEBUG is on. -/
theorem render_errors_swallowed_unless_debug
    (env₁ : RenderEnv) (node₁ : RenderTableNode) (ctx₁ : Context) (e₁ : Exc)
    (env₂ : RenderEnv) (node₂ : SmartRenderTableNode) (ctx₂ : Context) (e₂ : Exc)
    (h₁ : (renderTableInner env₁ node₁ ctx₁).1 = .error e₁)
    (h₂ : (smartRenderInner env₂ node₂ ctx₂).1 = .error e₂) :
    (RenderTableNode.render env₁ node₁ ctx₁).1 =
      (if env₁.settings.DEBUG then .error e₁
       else .ok env₁.settings.TEMPLATE_STRING_IF_INVALID) ∧
    (SmartRenderTableNode.render env₂ node₂ ctx₂).1 =
      (if env₂.settings.DEBUG then .error e₂
       else .ok env₂.settings.TEMPLATE_STRING_IF_INVALID) := by
  refine ⟨?_, ?_⟩
  · unfold RenderTableNode.render
    rw [h₁]
  · unfold SmartRenderTableNode.render
    rw [h₂]

/-- Witness for render_errors_swallowed_unless_debug: a non-Table value
makes both bodies raise ValueError; with debug off the placeholder comes
back, with debug on the error propagates. -/
theorem render_errors_swallowed_unless_debug_witness :
    (RenderTableNode.render sampleEnv badRenderNode sampleCtx).1 =
      (if sampleEnv.settings.DEBUG then
        .error (.valueError "Expected Table object, but did not find one.")
       else .ok sampleEnv.settings.TEMPLATE_STRING_IF_INVALID) ∧
    (SmartRenderTableNode.render debugEnv badSmartNode sampleCtx).1 =
      (if debugEnv.settings.DEBUG then
        .error (.valueError "Expected Table object, but did not find one.")
       else .ok debugEnv.settings.TEMPLATE_STRING_IF_INVALID) :=
  render_errors_swallowed_unless_debug sampleEnv badRenderNode sampleCtx
    (.valueError "Expected Table object, but did not find one.")
    debugEnv badSmartNode sampleCtx
    (.valueError "Expected Table object, but did not find one.") rfl rfl

/-- Claim C8: a render_table tag with no table argument.  The source
intends TemplateSyntaxError but the second bits.pop(0) raises IndexError,
which the except ValueError clause does not catch, so template
compilation fails with IndexError instead. -/
theorem render_table_missing_arg_index_error :
    render_table ["render_table"] = .error (.indexError "pop from empty list") ∧
    (∀ msg, render_table ["render_table"] ≠ .error (.templateSyntaxError msg)) :=
  ⟨rfl, fun _ h => by simp [render_table] at h⟩

theorem parseUrlParamBit_error_cases (bit : String) (e : Exc)
    (h : parseUrlParamBit bit = .error e) :
    e = .templateSyntaxError "Argument syntax wrong: should bekey=value" ∨
      ∃ m, e = .tokenError m := by
  unfold parseUrlParamBit at h
  cases hs : splitEqOnce bit with
  | none => rw [hs] at h; cases h; exact Or.inl rfl
  | some ab =>
    rw [hs] at h
    simp only at h
    cases ht : tokenizeKeyErr (pyStrip ab.1) with
    | some msg =>
      rw [ht] at h
      cases h
      exact Or.inr ⟨msg, rfl⟩
    | none =>
      rw [ht] at h
      simp only at h
      by_cases hn : firstTokenIsName (pyStrip ab.1) = true
      · rw [if_pos hn] at h; cases h
      · rw [if_neg hn] at h; cases h; exact Or.inl rfl

theorem parseUrlParamBit_bad (bit : String)
    (hbad : splitEqOnce bit = none ∨
      ∀ a b, splitEqOnce bit = some (a, b) →
        tokenizeKeyErr (pyStrip a) = none ∧ firstTokenIsName (pyStrip a) = false) :
    parseUrlParamBit bit =
      .error (.templateSyntaxError "Argument syntax wrong: should bekey=value") := by
  cases hs : splitEqOnce bit with
  | none => simp only [parseUrlParamBit, hs]
  | some ab =>
    rcases hbad with hnone | hname
    · rw [hnone] at hs; cases hs
    · obtain ⟨hscan, hnm⟩ := hname ab.1 ab.2 (by rw [hs])
      simp only [parseUrlParamBit, hs, hscan]
      rw [if_neg (by rw [hnm]; exact Bool.false_ne_true)]

theorem parseUrlParamBits_bad (l : List String)
    (hex : ∃ bit ∈ l, parseUrlParamBit bit =
      .error (.templateSyntaxError "Argument syntax wrong: should bekey=value"))
    (hnotok : ∀ b ∈ l, isTokenErrResult (parseUrlParamBit b) = false) :
    parseUrlParamBits l =
      .error (.templateSyntaxError "Argument syntax wrong: should bekey=value") := by
  induction l with
  | nil => obtain ⟨bit, hm, _⟩ := hex; cases hm
  | cons b rest ih =>
    unfold parseUrlParamBits
    cases hb : parseUrlParamBit b with
    | error e =>
      rcases parseUrlParamBit_error_cases b e hb with he | ⟨m, he⟩
      · rw [he]
      · exfalso
        have hf := hnotok b (List.mem_cons_self _ _)
        rw [hb, he] at hf
        simp [isTokenErrResult] at hf
    | ok kv =>
      obtain ⟨bit, hm, hbit⟩ := hex
      rcases List.mem_cons.mp hm with heq | hrest
      · rw [← heq] at hb; rw [hb] at hbit; cases hbit
      · rw [ih ⟨bit, hrest, hbit⟩
          (fun b' hb' => hnotok b' (List.mem_cons_of_mem _ hb'))]

theorem token_kwargs_rem_ne_nil (l : List String)
    (hex : ∃ bit ∈ l, kwargMatch bit = none) :
    (token_kwargs l).2 ≠ [] := by
  induction l with
  | nil => obtain ⟨bit, hm, _⟩ := hex; cases hm
  | cons b rest ih =>
    unfold token_kwargs
    cases hb : kwargMatch b with
    | none => simp
    | some kv =>
      obtain ⟨bit, hm, hbit⟩ := hex
      rcases List.mem_cons.mp hm with heq | hrest
      · rw [← heq] at hb; rw [hb] at hbit; cases hbit
      · simpa using ih ⟨bit, hrest, hbit⟩

/-- Counterexample to claim C4: the set_url_param argument bit (=1 has
key '(' whose forced tokenization leaves an open bracket, so
list(tokenize.generate_tokens(...)) raises tokenize.TokenError, which
except ValueError does not catch --- tag compilation fails with the
uncaught TokenError, not with the TemplateSyntaxError the claim
promises. -/
theorem set_url_param_token_error_counterexample :
    set_url_param ["set_url_param", "(=1"] =
      .error (.tokenError "EOF in multi-line statement") ∧
    (∀ msg, set_url_param ["set_url_param", "(=1"] ≠
      .error (.templateSyntaxError msg)) :=
  ⟨rfl, fun _ h => by
    rw [(rfl : set_url_param ["set_url_param", "(=1"] =
      .error (.tokenError "EOF in multi-line statement"))] at h
    cases h⟩

/-- Claim C4 as amended: for set_url_param, every argument bit that is
not key=value with a NAME-token key raises TemplateSyntaxError from the
tag-compile function, provided no argument's key makes the tokenizer
raise tokenize.TokenError (an unbalanced bracket or unterminated
triple-quoted string in a key instead makes the uncaught TokenError
propagate); for the querystring tag, any trailing bits token_kwargs
cannot consume as key=value pairs cause TemplateSyntaxError. -/
theorem malformed_tag_args_syntax_error
    (bits₁ : List String) (bit : String)
    (hmem : bit ∈ List.drop 1 bits₁)
    (hbad : splitEqOnce bit = none ∨
      ∀ a b, splitEqOnce bit = some (a, b) →
        tokenizeKeyErr (pyStrip a) = none ∧ firstTokenIsName (pyStrip a) = false)
    (hnotok : ∀ b ∈ List.drop 1 bits₁, isTokenErrResult (parseUrlParamBit b) = false)
    (tag : String) (rest : List String) (bit₂ : String)
    (hmem₂ : bit₂ ∈ rest) (hbad₂ : kwargMatch bit₂ = none) :
    set_url_param bits₁ =
      .error (.templateSyntaxError "Argument syntax wrong: should bekey=value") ∧
    querystring (tag :: rest) =
      .error (.templateSyntaxError ("Malformed arguments to " ++ tag)) := by
  refine ⟨?_, ?_⟩
  · exact parseUrlParamBits_bad _ ⟨bit, hmem, parseUrlParamBit_bad bit hbad⟩ hnotok
  · simp only [querystring]
    rw [if_neg (fun hc =>
      token_kwargs_rem_ne_nil rest ⟨bit₂, hmem₂, hbad₂⟩ (List.isEmpty_iff.mp hc))]

/-- Witness for malformed_tag_args_syntax_error: set_url_param with the
bit nope (no '='), querystring with the junk bit. -/
theorem malformed_tag_args_syntax_error_witness :
    set_url_param ["set_url_param", "nope"] =
      .error (.templateSyntaxError "Argument syntax wrong: should bekey=value") ∧
    querystring ["querystring", "a=1", "junk"] =
      .error (.templateSyntaxError ("Malformed arguments to " ++ "querystring")) :=
  malformed_tag_args_syntax_error ["set_url_param", "nope"] "nope"
    (by decide) (Or.inl rfl) (by decide) "querystring" ["a=1", "junk"] "junk"
    (by decide) rfl

theorem smartRenderStaged_fields (env : RenderEnv) (node : SmartRenderTableNode)
    (context : Context) (request : Request) (table : Table)
    (res : Except Exc String) (t' : Table)
    (h : smartRenderStaged env node context request table = (res, some t')) :
    t'.order_by = table.order_by ∧ t'.page = table.page := by
  simp only [smartRenderStaged] at h
  repeat' split at h
  all_goals simp only [Prod.mk.injEq] at h
  all_goals obtain ⟨-, hb⟩ := h
  all_goals injection hb with hb
  all_goals subst hb
  all_goals simp

theorem smartRenderBody_applies (env : RenderEnv) (node : SmartRenderTableNode)
    (context : Context) (request : Request) (table : Table) (s : String) (t : Table)
    (hreq : context.request? = some request)
    (h : smartRenderBody env node context table = (.ok s, some t)) :
    t.order_by = qdGet request.GET "sort" ∧ t.page = some (pageParam request.GET) := by
  simp only [smartRenderBody] at h
  rw [hreq] at h
  have hf := smartRenderStaged_fields _ _ _ _ _ _ _ h
  simpa using hf

/-- Claim C6: for every successful smart_render_table render body, the
table's ordering was set from the request's sort query parameter (None
when absent) and the table was paginated to the page query parameter,
defaulting to page 1 when absent, before delegating to the template
renderer. -/
theorem smart_render_applies_sort_and_page
    (env : RenderEnv) (node : SmartRenderTableNode) (context : Context)
    (request : Request) (s : String) (t : Table)
    (hreq : context.request? = some request)
    (hok : smartRenderInner env node context = (.ok s, some t)) :
    t.order_by = qdGet request.GET "sort" ∧ t.page = some (pageParam request.GET) := by
  simp only [smartRenderInner] at hok
  split at hok
  · exact absurd hok (by simp)
  · exact smartRenderBody_applies _ _ _ _ _ _ _ hreq hok
  · exact smartRenderBody_applies _ _ _ _ _ _ _ hreq hok
  · exact absurd hok (by simp)

/-- Witness for smart_render_applies_sort_and_page at the sample
request. -/
theorem smart_render_applies_sort_and_page_witness :
    smartResultTable.order_by = qdGet sampleReq.GET "sort" ∧
    smartResultTable.page = some (pageParam sampleReq.GET) :=
  smart_render_applies_sort_and_page sampleEnv sampleSmartNode sampleCtx sampleReq
    "rendered" smartResultTable rfl rfl

/-- Counterexample to claim C7: a successful render_table render whose
request carries sort and page query parameters, yet the table delegated
to the template renderer keeps its ordering and pagination untouched
(RenderTableNode applies neither). -/
theorem render_table_no_sort_counterexample :
    renderTableInner sampleEnv sampleRenderNode sampleCtx =
      (.ok "rendered", some sampleTable) ∧
    qdGet sampleReq.GET "sort" = some "name" ∧
    qdGet sampleReq.GET "page" = some "2" ∧
    sampleTable.order_by ≠ qdGet sampleReq.GET "sort" ∧
    sampleTable.page ≠ some (pageParam sampleReq.GET) :=
  ⟨rfl, rfl, rfl, by decide, by decide⟩

/-- Claim C7 as amended: RenderTableNode.render applies no pagination or
sorting at all --- the table reaching the template renderer keeps the
resolved table's order_by and page unchanged (only the temporary request
attribute is attached and removed); request-driven ordering and
pagination happen only in smart_render_table. -/
theorem render_table_preserves_order_and_page
    (env : RenderEnv) (node : RenderTableNode) (context : Context) (t : Table)
    (res : Except Exc String) (t' : Table)
    (h : node.tableExpr context = .ok (.table t))
    (hr : renderTableInner env node context = (res, some t')) :
    t'.order_by = t.order_by ∧ t'.page = t.page := by
  simp only [renderTableInner] at hr
  split at hr
  · simp at hr
  · simp at hr
  · next table heq =>
      rw [h] at heq
      injection heq with heq
      injection heq with heq
      subst heq
      repeat' split at hr
      all_goals simp only [Prod.mk.injEq] at hr
      all_goals obtain ⟨-, hb⟩ := hr
      all_goals injection hb with hb
      all_goals subst hb
      all_goals simp

/-- Witness for render_table_preserves_order_and_page at the sample
table and request. -/
theorem render_table_preserves_order_and_page_witness :
    sampleTable.order_by = sampleTable.order_by ∧
    sampleTable.page = sampleTable.page :=
  render_table_preserves_order_and_page sampleEnv sampleRenderNode sampleCtx
    sampleTable (.ok "rendered") sampleTable rfl rfl

theorem smartRenderStaged_request_deleted (env : RenderEnv) (node : SmartRenderTableNode)
    (context : Context) (request : Request) (table : Table)
    (res : Except Exc String) (t' : Table)
    (htab : table.request? = none)
    (h : smartRenderStaged env node context request table = (res, some t')) :
    t'.request? = none := by
  simp only [smartRenderStaged] at h
  repeat' split at h
  all_goals simp only [Prod.mk.injEq] at h
  all_goals obtain ⟨-, hb⟩ := h
  all_goals injection hb with hb
  all_goals subst hb
  all_goals simp_all

theorem smartRenderBody_request_deleted (env : RenderEnv) (node : SmartRenderTableNode)
    (context : Context) (table : Table) (res : Except Exc String) (t' : Table)
    (htab : table.request? = none)
    (h : smartRenderBody env node context table = (res, some t')) :
    t'.request? = none := by
  simp only [smartRenderBody] at h
  split at h
  · simp only [Prod.mk.injEq] at h
    obtain ⟨-, hb⟩ := h
    injection hb with hb
    subst hb
    exact htab
  · exact smartRenderStaged_request_deleted _ _ _ _ _ _ _ (by simpa using htab) h

/-- Claim C10: the temporary request attribute attached to the table is
always deleted again before the render body finishes, whether the
template renders successfully or raises: whenever the body resolves a
table that starts without a request attribute, the table ends without
one, for both render_table and smart_render_table. -/
theorem table_request_attr_deleted
    (env₁ : RenderEnv) (node₁ : RenderTableNode) (ctx₁ : Context) (t₁ : Table)
    (res₁ : Except Exc String) (t₁' : Table)
    (env₂ : RenderEnv) (node₂ : SmartRenderTableNode) (ctx₂ : Context)
    (r₂ : ResolvedSmart) (res₂ : Except Exc String) (t₂' : Table)
    (h₁ : node₁.tableExpr ctx₁ = .ok (.table t₁))
    (hreq₁ : t₁.request? = none)
    (hr₁ : renderTableInner env₁ node₁ ctx₁ = (res₁, some t₁'))
    (h₂ : node₂.tableExpr ctx₂ = .ok r₂)
    (htab₂ : ∀ u, r₂ = .table u → u.request? = none)
    (hqs₂ : ∀ qs, r₂ = .queryset qs → (env₂.querySetTable qs).request? = none)
    (hr₂ : smartRenderInner env₂ node₂ ctx₂ = (res₂, some t₂')) :
    t₁'.request? = none ∧ t₂'.request? = none := by
  refine ⟨?_, ?_⟩
  · simp only [renderTableInner] at hr₁
    split at hr₁
    · simp at hr₁
    · simp at hr₁
    · next table heq =>
        rw [h₁] at heq
        injection heq with heq
        injection heq with heq
        subst heq
        repeat' split at hr₁
        all_goals simp only [Prod.mk.injEq] at hr₁
        all_goals obtain ⟨-, hb⟩ := hr₁
        all_goals injection hb with hb
        all_goals subst hb
        all_goals simp_all
  · simp only [smartRenderInner] at hr₂
    split at hr₂
    · simp at hr₂
    · next qs heq =>
        rw [h₂] at heq
        injection heq with heq
        exact smartRenderBody_request_deleted _ _ _ _ _ _ (hqs₂ qs heq) hr₂
    · next u heq =>
        rw [h₂] at heq
        injection heq with heq
        exact smartRenderBody_request_deleted _ _ _ _ _ _ (htab₂ u heq) hr₂
    · simp at hr₂

/-- Witness for table_request_attr_deleted at the sample nodes. -/
theorem table_request_attr_deleted_witness :
    sampleTable.request? = none ∧ smartResultTable.request? = none :=
  table_request_attr_deleted sampleEnv sampleRenderNode sampleCtx sampleTable
    (.ok "rendered") sampleTable sampleEnv sampleSmartNode sampleCtx
    (.table sampleTable) (.ok "rendered") smartResultTable
    rfl rfl rfl rfl (fun u h => by cases h; rfl) (fun qs h => nomatch h) rfl

end DjangoTables2
